import Mathlib

/-!
Verification of the quantins1 trading-bot repository.

The repository contains four near-duplicate bot variants:
  * `src/paper_trading_bot_Edited.py` — paper bot, rolling-mean signal, no
    kill-switch, constant reconnect delay (namespace `Edited`);
  * `src/paper_trading_bot.py` — paper bot with signal persistence buffer,
    exit deadband, kill-switches, latest-single-return signal (namespace `PT`);
  * `src/bot.py` / `src/bot_final.py` — live-order variants sharing
    `update_returns_state` / `compute_signal`, `bot_final.py` adding
    exponential reconnect backoff (namespace `BotFinal`).

Prices and balances are embedded as `ℚ` (Python floats, exact in all inputs
used here); deques with `maxlen` are embedded as lists kept most-recent-first,
truncated with `List.take` on push.  A Python run-time error (subtracting
`None`) is embedded as `Option.none`.
-/

/-- A JSON field value as seen by the bots: either a value Python's
`float(...)` converts to a number `q` (a JSON number or numeric string), or a
value `float(...)` rejects (non-numeric string, null, object, ...). -/
inductive JVal where
  | num (q : ℚ)
  | nonnum (s : String)
deriving DecidableEq

/-- Python `float(v)` on a field value: `some q` on success, `none` when the
conversion raises `TypeError`/`ValueError`. -/
def parse_float : JVal → Option ℚ
  | .num q => some q
  | .nonnum _ => none

/-- The position side strings `"FLAT" | "LONG" | "SHORT"` used by both paper
bots. -/
inductive PosSide where
  | FLAT
  | LONG
  | SHORT
deriving DecidableEq

/-- `compute_return(new, prev)` of both paper bots:
`(new - prev) / prev if prev else 0.0`. -/
def compute_return (new prev : ℚ) : ℚ :=
  if prev = 0 then 0 else (new - prev) / prev

/-- `rolling_mean()` of `paper_trading_bot_Edited.py` (and the rolling-mean
computation inside `update_returns_state` of `bot.py`/`bot_final.py`):
`sum(returns) / len(returns) if returns else 0.0`. -/
def rolling_mean (returns : List ℚ) : ℚ :=
  if returns = [] then 0 else returns.sum / returns.length

/-- `compute_signal(ret_percent, long, short)` of `bot.py`/`bot_final.py`,
identical to `signal_from_return` of both paper bots (there the thresholds
are the module constants): 1 for long, -1 for short, 0 for neutral. -/
def compute_signal (ret_percent long short : ℚ) : Int :=
  if ret_percent > long then 1
  else if ret_percent < short then -1
  else 0

/-- Python's `str.startswith(pre)`, modelled on the character list of the
string so that it evaluates inside proofs. -/
def startswith (s pre : String) : Bool := pre.toList.isPrefixOf s.toList

/-- A websocket message restricted to the fields the bots read: `type`,
`candle_start_time` (read by `paper_trading_bot_Edited.py`), `timestamp`
(read by `bot_final.py`) and `close`.  `none` means the key is absent. -/
structure WsMsg where
  type_ : Option String
  candle_start_time : Option JVal
  timestamp : Option JVal
  close : Option JVal
deriving DecidableEq

namespace Edited

/-- `WINDOW` of `paper_trading_bot_Edited.py`. -/
def WINDOW : ℕ := 2

/-- `LONG_THRESH` of `paper_trading_bot_Edited.py`. -/
def LONG_THRESH : ℚ := 1/2

/-- `SHORT_THRESH` of `paper_trading_bot_Edited.py`. -/
def SHORT_THRESH : ℚ := -(1/2)

/-- `POSITION_SIZE` of `paper_trading_bot_Edited.py`. -/
def POSITION_SIZE : ℚ := 1

/-- `START_BALANCE` of `paper_trading_bot_Edited.py`. -/
def START_BALANCE : ℚ := 100000

/-- `MAX_TRADES` of `paper_trading_bot_Edited.py` (declared, never checked
by `consume_ws`). -/
def MAX_TRADES : ℕ := 50

/-- `MAX_DRAWDOWN` of `paper_trading_bot_Edited.py` (declared, never checked
by `consume_ws`). -/
def MAX_DRAWDOWN : ℚ := -5000

/-- `RECONNECT_DELAY` of `paper_trading_bot_Edited.py`. -/
def RECONNECT_DELAY : ℕ := 5

/-- `BotState` of `paper_trading_bot_Edited.py`.  `closes` and `returns`
are the deques (`maxlen WINDOW+1` / `WINDOW`) kept most-recent-first; the
`equity_curve` list (pure logging, read by nothing) is omitted. -/
structure BotState where
  closes : List ℚ
  returns : List ℚ
  position : PosSide
  entry_price : Option ℚ
  balance : ℚ
  trades : ℕ
  last_candle_ts : Option JVal
deriving DecidableEq

/-- The freshly constructed `BotState()`. -/
def init_state : BotState :=
  { closes := []
    returns := []
    position := .FLAT
    entry_price := none
    balance := START_BALANCE
    trades := 0
    last_candle_ts := none }

/-- `enter_long(price)` of `paper_trading_bot_Edited.py`. -/
def enter_long (s : BotState) (price : ℚ) : BotState :=
  { s with position := .LONG, entry_price := some price, trades := s.trades + 1 }

/-- `enter_short(price)` of `paper_trading_bot_Edited.py`. -/
def enter_short (s : BotState) (price : ℚ) : BotState :=
  { s with position := .SHORT, entry_price := some price, trades := s.trades + 1 }

/-- `exit_position(price)` of `paper_trading_bot_Edited.py`.  When the
position is LONG or SHORT while `entry_price` is `None`, Python's subtraction
raises `TypeError`; that run-time error is `none`. -/
def exit_position (size : ℚ) (s : BotState) (price : ℚ) : Option BotState :=
  match s.position, s.entry_price with
  | .LONG, some e =>
      some { s with
        balance := s.balance + (price - e) * size
        position := .FLAT
        entry_price := none }
  | .SHORT, some e =>
      some { s with
        balance := s.balance + (e - price) * size
        position := .FLAT
        entry_price := none }
  | .FLAT, _ => some s
  | _, none => none

/-- `handle_signal(signal, price)` of `paper_trading_bot_Edited.py`. -/
def handle_signal (size : ℚ) (s : BotState) (signal : Int) (price : ℚ) :
    Option BotState :=
  match s.position with
  | .FLAT =>
      if signal = 1 then some (enter_long s price)
      else if signal = -1 then some (enter_short s price)
      else some s
  | .LONG =>
      if signal ≤ 0 then
        (exit_position size s price).map fun s1 =>
          if signal = -1 then enter_short s1 price else s1
      else some s
  | .SHORT =>
      if 0 ≤ signal then
        (exit_position size s price).map fun s1 =>
          if signal = 1 then enter_long s1 price else s1
      else some s

/-- The per-candle body of `consume_ws` in `paper_trading_bot_Edited.py`,
after `parse_delta_candlestick` returned `(ts, close)` — parameterised by the
config constants `W`, `lt`, `st`, `size`: timestamp deduplication, rolling
window update, signal, `handle_signal`. -/
def consume_candle (W : ℕ) (lt st size : ℚ) (s : BotState) (ts : JVal)
    (close : ℚ) : Option BotState :=
  if some ts = s.last_candle_ts then some s
  else
    let s0 := { s with last_candle_ts := some ts }
    let s1 := match s0.closes with
      | [] => s0
      | prev :: _ =>
          { s0 with returns := (compute_return close prev :: s0.returns).take W }
    let s2 := { s1 with closes := (close :: s1.closes).take (W + 1) }
    let ret_pct := rolling_mean s2.returns * 100
    let signal := compute_signal ret_pct lt st
    handle_signal size s2 signal close

/-- The `async for` loop of `consume_ws` over a list of already-parsed
candles (no kill-switch exists in this file: every candle is processed). -/
def consume_list (W : ℕ) (lt st size : ℚ) :
    BotState → List (JVal × ℚ) → Option BotState
  | s, [] => some s
  | s, (ts, close) :: rest =>
    match consume_candle W lt st size s ts close with
    | some s1 => consume_list W lt st size s1 rest
    | none => none

/-- `parse_delta_candlestick(msg)` of `paper_trading_bot_Edited.py`: require
the `type` field to start with `"candlestick_"`, read `candle_start_time`
verbatim (never parsed as a number), convert `close` with `float(...)`;
any `KeyError`/`TypeError`/`ValueError` yields `None`. -/
def parse_delta_candlestick (msg : WsMsg) : Option (JVal × ℚ) :=
  if startswith (msg.type_.getD "") "candlestick_" then
    match msg.candle_start_time, msg.close with
    | some ts, some c =>
        match parse_float c with
        | some q => some (ts, q)
        | none => none
    | _, _ => none
  else none

/-- One raw websocket message through `consume_ws`: parse, discard on
`None`, otherwise process the candle. -/
def consume_msg (W : ℕ) (lt st size : ℚ) (s : BotState) (msg : WsMsg) :
    Option BotState :=
  match parse_delta_candlestick msg with
  | none => some s
  | some (ts, close) => consume_candle W lt st size s ts close

/-- The wait before the k-th consecutive reconnection attempt of
`run_forever` in `paper_trading_bot_Edited.py`: `asyncio.sleep(RECONNECT_DELAY)`
in a bare `while True` loop — a constant, independent of k. -/
def run_forever_wait (_k : ℕ) : ℕ := RECONNECT_DELAY

/-- The states reachable from `BotState()` by any sequence of `enter_long`,
`enter_short`, `exit_position` and `handle_signal` calls (at a fixed
position size), excluding runs that already crashed (`none`). -/
inductive Reachable (size : ℚ) : BotState → Prop
  | init : Reachable size init_state
  | enterLong (s : BotState) (p : ℚ) :
      Reachable size s → Reachable size (enter_long s p)
  | enterShort (s : BotState) (p : ℚ) :
      Reachable size s → Reachable size (enter_short s p)
  | exit (s : BotState) (p : ℚ) (s' : BotState) :
      Reachable size s → exit_position size s p = some s' → Reachable size s'
  | handle (s : BotState) (sig : Int) (p : ℚ) (s' : BotState) :
      Reachable size s → handle_signal size s sig p = some s' → Reachable size s'

end Edited

namespace PT

/-- `WINDOW` of `paper_trading_bot.py`. -/
def WINDOW : ℕ := 5

/-- `LONG_THRESH` of `paper_trading_bot.py`. -/
def LONG_THRESH : ℚ := 1/100

/-- `SHORT_THRESH` of `paper_trading_bot.py`. -/
def SHORT_THRESH : ℚ := -(1/100)

/-- `POSITION_SIZE` of `paper_trading_bot.py`. -/
def POSITION_SIZE : ℚ := 1

/-- `START_BALANCE` of `paper_trading_bot.py`. -/
def START_BALANCE : ℚ := 100000

/-- `MAX_TRADES` of `paper_trading_bot.py`. -/
def MAX_TRADES : ℕ := 50

/-- `MAX_DRAWDOWN` of `paper_trading_bot.py`. -/
def MAX_DRAWDOWN : ℚ := -5000

/-- `EXIT_DEADBAND` of `paper_trading_bot.py`. -/
def EXIT_DEADBAND : ℚ := 1/500

/-- The module-level mutable state of `paper_trading_bot.py`: the deques
`closes` (`maxlen WINDOW+1`), `returns` (`maxlen WINDOW`) and `signal_buf`
(`maxlen 2`), all kept most-recent-first, plus position, entry price,
balance, trade count and the deduplication timestamp. -/
structure State where
  closes : List ℚ
  returns : List ℚ
  signal_buf : List Int
  position : PosSide
  entry_price : Option ℚ
  balance : ℚ
  trades : ℕ
  last_candle_ts : Option JVal
deriving DecidableEq

/-- The module-level state at import time. -/
def init_state : State :=
  { closes := []
    returns := []
    signal_buf := []
    position := .FLAT
    entry_price := none
    balance := START_BALANCE
    trades := 0
    last_candle_ts := none }

/-- `enter_long(price)` of `paper_trading_bot.py`. -/
def enter_long (s : State) (price : ℚ) : State :=
  { s with position := .LONG, entry_price := some price, trades := s.trades + 1 }

/-- `enter_short(price)` of `paper_trading_bot.py`. -/
def enter_short (s : State) (price : ℚ) : State :=
  { s with position := .SHORT, entry_price := some price, trades := s.trades + 1 }

/-- `exit_position(price)` of `paper_trading_bot.py` (same body as the
`Edited` variant; `none` is Python's `TypeError` on a `None` entry price). -/
def exit_position (size : ℚ) (s : State) (price : ℚ) : Option State :=
  match s.position, s.entry_price with
  | .LONG, some e =>
      some { s with
        balance := s.balance + (price - e) * size
        position := .FLAT
        entry_price := none }
  | .SHORT, some e =>
      some { s with
        balance := s.balance + (e - price) * size
        position := .FLAT
        entry_price := none }
  | .FLAT, _ => some s
  | _, none => none

/-- The signal-persistence guard of `handle_signal` in
`paper_trading_bot.py`: proceed only when the buffer holds 2 signals and
all of them equal the current one
(`if len(signal_buf) < 2 or not all(s == signal for s in signal_buf): return`). -/
def persistent (buf : List Int) (signal : Int) : Bool :=
  decide (2 ≤ buf.length) && buf.all (fun x => x == signal)

/-- `handle_signal(signal, price, ret_pct)` of `paper_trading_bot.py`:
persistence guard, then the FLAT/LONG/SHORT transitions with the
`abs(ret_pct) < EXIT_DEADBAND` exit condition under a neutral signal
(deadband passed as a parameter). -/
def handle_signal (deadband size : ℚ) (s : State) (signal : Int) (price : ℚ)
    (ret_pct : ℚ) : Option State :=
  if persistent s.signal_buf signal then
    match s.position with
    | .FLAT =>
        if signal = 1 then some (enter_long s price)
        else if signal = -1 then some (enter_short s price)
        else some s
    | .LONG =>
        if signal = -1 then
          (exit_position size s price).map fun s1 => enter_short s1 price
        else if signal = 0 ∧ |ret_pct| < deadband then
          exit_position size s price
        else some s
    | .SHORT =>
        if signal = 1 then
          (exit_position size s price).map fun s1 => enter_long s1 price
        else if signal = 0 ∧ |ret_pct| < deadband then
          exit_position size s price
        else some s
  else some s

/-- The per-candle body of `run` in `paper_trading_bot.py` before the
kill-switch check, for an already-extracted `(ts, close)`: timestamp
deduplication, window update with `ret_pct` taken from the **latest single
percentage change** (the `returns` deque is appended but never read),
signal from `ret_pct`, push into `signal_buf`, then `handle_signal`. -/
def step (W : ℕ) (lt st deadband size : ℚ) (s : State) (ts : JVal)
    (close : ℚ) : Option State :=
  if some ts = s.last_candle_ts then some s
  else
    let s0 := { s with last_candle_ts := some ts }
    let p := match s0.closes with
      | [] => (s0, (0 : ℚ))
      | prev :: _ =>
          ({ s0 with returns := (compute_return close prev :: s0.returns).take W },
           compute_return close prev * 100)
    let s2 := { p.1 with closes := (close :: p.1.closes).take (W + 1) }
    let signal := compute_signal p.2 lt st
    let s3 := { s2 with signal_buf := (signal :: s2.signal_buf).take 2 }
    handle_signal deadband size s3 signal close p.2

/-- The kill-switch condition checked by `run` after each processed candle:
`trades >= MAX_TRADES or balance - START_BALANCE <= MAX_DRAWDOWN`. -/
def halted (start_balance max_drawdown : ℚ) (max_trades : ℕ) (s : State) :
    Bool :=
  decide (max_trades ≤ s.trades) || decide (s.balance - start_balance ≤ max_drawdown)

/-- The `async for` loop of `run` in `paper_trading_bot.py` over a list of
already-extracted candles: process a candle, then `break` out of the loop
when the kill-switch condition holds. -/
def run (W : ℕ) (lt st deadband size start_balance max_drawdown : ℚ)
    (max_trades : ℕ) : State → List (JVal × ℚ) → Option State
  | s, [] => some s
  | s, (ts, close) :: rest =>
    match step W lt st deadband size s ts close with
    | some s1 =>
        if halted start_balance max_drawdown max_trades s1 then some s1
        else run W lt st deadband size start_balance max_drawdown max_trades s1 rest
    | none => none

/-- The same candle loop with the kill-switch check removed: every candle
of the list is processed unconditionally.  Used to express at which candle
`run` stops. -/
def stepN (W : ℕ) (lt st deadband size : ℚ) :
    Option State → List (JVal × ℚ) → Option State
  | o, [] => o
  | o, (ts, close) :: rest =>
    match o with
    | some s => stepN W lt st deadband size (step W lt st deadband size s ts close) rest
    | none => none

end PT

namespace BotFinal

/-- The rolling-state dict of `make_rolling_state(window)` in
`bot.py`/`bot_final.py`: the deques `closes` (`maxlen window+1`) and
`pct_deque` (`maxlen window`), kept most-recent-first, plus `last_signal`.
The `maxlen` capacities are fixed at construction; `update_returns_state`
receives the same `window` again and relies on that agreement. -/
structure RollingState where
  closes : List ℚ
  pct_deque : List ℚ
  last_signal : Int
deriving DecidableEq

/-- `make_rolling_state(window)`: empty deques and `last_signal = 0`. -/
def make_rolling_state : RollingState :=
  { closes := [], pct_deque := [], last_signal := 0 }

/-- `update_returns_state(state, new_close, window)` of
`bot.py`/`bot_final.py`: if a previous close exists, append
`(new_close - prev) / prev` (0 when `prev == 0`) to `pct_deque`; append
`new_close` to `closes`; return the new state and
`mean(pct_deque) * 100` (0 for an empty deque). -/
def update_returns_state (window : ℕ) (s : RollingState) (new_close : ℚ) :
    RollingState × ℚ :=
  let pct_deque := match s.closes with
    | [] => s.pct_deque
    | prev :: _ =>
        ((if prev = 0 then 0 else (new_close - prev) / prev) :: s.pct_deque).take window
  let closes := (new_close :: s.closes).take (window + 1)
  let rolling_mean := if pct_deque = [] then 0 else pct_deque.sum / pct_deque.length
  (⟨closes, pct_deque, s.last_signal⟩, rolling_mean * 100)

/-- Feeding a whole chronological list of closes one at a time through
`update_returns_state`, starting from `make_rolling_state`; the second
component is the value returned for the most recent close (0 before any
close arrived). -/
def feed_closes (window : ℕ) (cs : List ℚ) : RollingState × ℚ :=
  cs.foldl (fun p c => update_returns_state window p.1 c) (make_rolling_state, 0)

/-- `parse_candle(msg)` of `bot_final.py`: require the `type` field to start
with `"candlestick_"`, convert `close` with `float(...)`, and read the
`timestamp` field with `.get` — a missing timestamp is forwarded as `None`,
and the timestamp is never parsed as a number.  The bare `except:` maps any
conversion failure to `None`. -/
def parse_candle (msg : WsMsg) : Option (ℚ × Option JVal) :=
  if startswith (msg.type_.getD "") "candlestick_" then
    match msg.close with
    | some c =>
        match parse_float c with
        | some q => some (q, msg.timestamp)
        | none => none
    | none => none
  else none

/-- The backoff floor of `run_bot` in `bot_final.py` (`backoff = 1`). -/
def backoff_floor : ℕ := 1

/-- The backoff ceiling of `run_bot` in `bot_final.py`
(`backoff = min(backoff * 2, 60)`). -/
def backoff_ceiling : ℕ := 60

/-- One backoff update of `run_bot`: `backoff = min(backoff * 2, 60)`. -/
def next_backoff (b : ℕ) : ℕ := min (b * 2) backoff_ceiling

/-- The reconnect waits produced by the `while True` loop of `run_bot` in
`bot_final.py`, given the current `backoff` and the outcome of each loop
iteration (`true`: `websockets.connect` succeeded, so `backoff = 1` was
executed before the connection eventually dropped; `false`: the iteration
failed without connecting).  Every iteration ends in the `except` block,
which sleeps the current backoff and then doubles it up to the ceiling;
the emitted wait precedes the next iteration's connection attempt. -/
def run_bot_waits : ℕ → List Bool → List ℕ
  | _, [] => []
  | b, connected :: rest =>
    let b0 := if connected then backoff_floor else b
    b0 :: run_bot_waits (next_backoff b0) rest

end BotFinal

/-- The percentage changes between consecutive closes of a chronological
list, as the claims state them: one step's change is
`(close - prev_close) / prev_close`, and `0` when `prev_close = 0`. -/
def pct_changes : List ℚ → List ℚ
  | [] => []
  | [_] => []
  | a :: b :: rest => (if a = 0 then 0 else (b - a) / a) :: pct_changes (b :: rest)

/-- The last `k` elements of a list, in order. -/
def lastN (k : ℕ) (xs : List ℚ) : List ℚ := (xs.reverse.take k).reverse

/-- Arithmetic mean, with the mean of an empty sequence taken to be 0, as
the claims state it. -/
def meanQ (xs : List ℚ) : ℚ := if xs = [] then 0 else xs.sum / xs.length



/-- A candle dict inside the `payload` list of a message, restricted to
the fields `paper_trading_bot.py` reads (`candle["close"]`,
`candle["start_timestamp"]`); `none` means the key is absent. -/
structure PayloadCandle where
  close : Option JVal
  start_timestamp : Option JVal
deriving DecidableEq

/-- A websocket message as read by `paper_trading_bot.py`'s `run` loop:
only `data.get("payload")` is ever read — the `type` field is carried but
never inspected.  `payload = none` covers an absent key or a JSON-falsy
value; otherwise the payload is a list of candle dicts. -/
structure PTMsg where
  type_ : Option String
  payload : Option (List PayloadCandle)
deriving DecidableEq

/-- Outcome of the unguarded candle-extraction prelude of `run` in
`paper_trading_bot.py`: silently skipped, crashed with an uncaught
exception, or an extracted `(close, timestamp)`. -/
inductive PTExtract where
  | skip
  | crash
  | candle (close : ℚ) (ts : JVal)
deriving DecidableEq

namespace PT

/-- The extraction prelude of `run` in `paper_trading_bot.py`:
`payload = data.get("payload"); if not payload: continue;
candle = payload[-1]; close = float(candle["close"]);
ts = candle["start_timestamp"]`.  A missing or empty (falsy) payload is
skipped silently; there is no `try`/`except`, so a missing `close` key
(`KeyError`), a `close` that `float` rejects (`ValueError`/`TypeError`),
or a missing `start_timestamp` key (`KeyError`) raises an exception that
escapes the receive loop. -/
def extract_candle (msg : PTMsg) : PTExtract :=
  match msg.payload with
  | none => .skip
  | some l =>
      match l.getLast? with
      | none => .skip
      | some candle =>
          match candle.close with
          | none => .crash
          | some v =>
              match parse_float v with
              | none => .crash
              | some q =>
                  match candle.start_timestamp with
                  | none => .crash
                  | some ts => .candle q ts

/-- One raw message through `run`'s loop body in `paper_trading_bot.py`:
a skipped message leaves the state unchanged, an extraction crash aborts
the run (outer `none`), an extracted candle goes through `step`
(inner `none` would be a crash inside the state machine). -/
def consume_msg (W : ℕ) (lt st deadband size : ℚ) (s : State)
    (msg : PTMsg) : Option (Option State) :=
  match extract_candle msg with
  | .skip => some (some s)
  | .crash => none
  | .candle close ts => some (step W lt st deadband size s ts close)

end PT

namespace BotFinal

/-- One raw message through the `async for` body of `run_bot` in
`bot_final.py` (order dispatch is a side effect and touches no rolling
state): parse with `parse_candle`, continue on `None` (a returned pair is
always truthy), otherwise update the rolling state and store the new
signal in `last_signal`. -/
def consume_msg (window : ℕ) (long_th short_th : ℚ) (s : RollingState)
    (msg : WsMsg) : RollingState :=
  match parse_candle msg with
  | none => s
  | some (close, _) =>
      let p := update_returns_state window s close
      { p.1 with last_signal := compute_signal p.2 long_th short_th }

end BotFinal

/-- C1: starting from the initial state with window `W = 2`, position size 1,
`long_threshold = 0.1`, `short_threshold = -0.1` (no confirmation buffer or
exit deadband exists in this pipeline), processing the closes
`100, 101, 99, 98, 105` with distinct timestamps through
`paper_trading_bot_Edited.py`'s per-candle pipeline ends with
balance `99992`, trade count `3` and an open LONG position entered at `105`. -/
theorem c1_scenario_final_state :
    Edited.consume_list 2 (1/10) (-(1/10)) 1 Edited.init_state
      [(.num 1, 100), (.num 2, 101), (.num 3, 99), (.num 4, 98), (.num 5, 105)]
    = some { closes := [105, 98, 99]
             returns := [1/14, -(1/99)]
             position := .LONG
             entry_price := some 105
             balance := 99992
             trades := 3
             last_candle_ts := some (.num 5) } := by
  have h1 : Edited.consume_candle 2 (1/10) (-(1/10)) 1
      Edited.init_state (.num 1) 100
      = some ⟨[100], [], .FLAT, none, 100000, 0, some (.num 1)⟩ := by
    simp [Edited.consume_candle, Edited.handle_signal, Edited.enter_long,
      Edited.enter_short, Edited.exit_position, compute_return,
      rolling_mean, compute_signal, Edited.init_state, Edited.START_BALANCE]
    norm_num
  have h2 : Edited.consume_candle 2 (1/10) (-(1/10)) 1
      (⟨[100], [], .FLAT, none, 100000, 0, some (.num 1)⟩ : Edited.BotState) (.num 2) 101
      = some ⟨[101, 100], [1/100], .LONG, some 101, 100000, 1, some (.num 2)⟩ := by
    simp [Edited.consume_candle, Edited.handle_signal, Edited.enter_long,
      Edited.enter_short, Edited.exit_position, compute_return,
      rolling_mean, compute_signal]
    norm_num
  have h3 : Edited.consume_candle 2 (1/10) (-(1/10)) 1
      (⟨[101, 100], [1/100], .LONG, some 101, 100000, 1, some (.num 2)⟩ : Edited.BotState) (.num 3) 99
      = some ⟨[99, 101, 100], [-(2/101), 1/100], .SHORT, some 99, 99998, 2, some (.num 3)⟩ := by
    simp [Edited.consume_candle, Edited.handle_signal, Edited.enter_long,
      Edited.enter_short, Edited.exit_position, compute_return,
      rolling_mean, compute_signal]
    norm_num
  have h4 : Edited.consume_candle 2 (1/10) (-(1/10)) 1
      (⟨[99, 101, 100], [-(2/101), 1/100], .SHORT, some 99, 99998, 2, some (.num 3)⟩ : Edited.BotState) (.num 4) 98
      = some ⟨[98, 99, 101], [-(1/99), -(2/101)], .SHORT, some 99, 99998, 2, some (.num 4)⟩ := by
    simp [Edited.consume_candle, Edited.handle_signal, Edited.enter_long,
      Edited.enter_short, Edited.exit_position, compute_return,
      rolling_mean, compute_signal]
    norm_num
  have h5 : Edited.consume_candle 2 (1/10) (-(1/10)) 1
      (⟨[98, 99, 101], [-(1/99), -(2/101)], .SHORT, some 99, 99998, 2, some (.num 4)⟩ : Edited.BotState) (.num 5) 105
      = some ⟨[105, 98, 99], [1/14, -(1/99)], .LONG, some 105, 99992, 3, some (.num 5)⟩ := by
    simp [Edited.consume_candle, Edited.handle_signal, Edited.enter_long,
      Edited.enter_short, Edited.exit_position, compute_return,
      rolling_mean, compute_signal]
    norm_num
  simp only [Edited.consume_list, h1, h2, h3, h4, h5]

/-- C3 (amended): the threshold map itself is exact — given
`short ≤ long`, `compute_signal` returns 1 exactly when the input exceeds
the long threshold, -1 exactly when it is below the short threshold and 0
otherwise.  (Which value is fed to it differs per variant: the rolling mean
in `bot.py`/`bot_final.py`/`paper_trading_bot_Edited.py`, the latest single
percentage change in `paper_trading_bot.py`.) -/
theorem c3_signal_threshold_amended (r long short : ℚ) (h : short ≤ long) :
    (compute_signal r long short = 1 ↔ long < r) ∧
    (compute_signal r long short = -1 ↔ r < short) ∧
    (compute_signal r long short = 0 ↔ r ≤ long ∧ short ≤ r) := by
  unfold compute_signal
  split_ifs with h1 h2 <;>
    refine ⟨⟨fun hx => ?_, fun hx => ?_⟩, ⟨fun hx => ?_, fun hx => ?_⟩,
      ⟨fun hx => ?_, fun hx => ?_⟩⟩ <;>
    first
      | rfl
      | exact absurd hx (by decide)
      | exact ⟨by linarith, by linarith⟩
      | (exfalso; linarith [hx.1, hx.2])
      | linarith

/-- C3 witness: the amended characterisation evaluated at
`r = 1, long = 0.1, short = -0.1`. -/
theorem c3_signal_threshold_amended_witness :
    ((-(1/10) : ℚ) ≤ 1/10) ∧
    ((compute_signal 1 (1/10) (-(1/10)) = 1 ↔ (1/10 : ℚ) < 1) ∧
     (compute_signal 1 (1/10) (-(1/10)) = -1 ↔ (1 : ℚ) < -(1/10)) ∧
     (compute_signal 1 (1/10) (-(1/10)) = 0 ↔ (1 : ℚ) ≤ 1/10 ∧ -(1/10) ≤ (1 : ℚ))) :=
  ⟨by norm_num, c3_signal_threshold_amended 1 (1/10) (-(1/10)) (by norm_num)⟩

/-- C3 counterexample: in `paper_trading_bot.py`, after the closes
`100, 101, 100.5` the raw signal passed to `handle_signal` on the third
candle (the most recent entry of `signal_buf`) is `-1` — the threshold map
of the latest single percentage change — while the threshold map of the
rolling mean return percent (`mean(returns) * 100`, computable from the
final state's `returns` deque) is `1`.  So the raw signal is **not** the
threshold map of the rolling mean, refuting the claim as stated. -/
theorem c3_latest_pct_counterexample :
    PT.run 5 (1/100) (-(1/100)) (1/500) 1 100000 (-5000) 50 PT.init_state
      [(.num 1, 100), (.num 2, 101), (.num 3, 201/2)]
      = some ⟨[201/2, 101, 100], [-(1/202), 1/100], [-1, 1], .FLAT, none,
              100000, 0, some (.num 3)⟩ ∧
    compute_signal (rolling_mean [-(1/202), 1/100] * 100) (1/100) (-(1/100)) = 1 := by
  constructor
  · have h1 : PT.step 5 (1/100) (-(1/100)) (1/500) 1 PT.init_state (.num 1) 100
        = some ⟨[100], [], [0], .FLAT, none, 100000, 0, some (.num 1)⟩ := by
      simp [PT.step, PT.init_state, PT.handle_signal, PT.persistent,
        compute_return, compute_signal, PT.START_BALANCE]
      norm_num
    have h2 : PT.step 5 (1/100) (-(1/100)) (1/500) 1
        (⟨[100], [], [0], .FLAT, none, 100000, 0, some (.num 1)⟩ : PT.State)
        (.num 2) 101
        = some ⟨[101, 100], [1/100], [1, 0], .FLAT, none, 100000, 0,
                some (.num 2)⟩ := by
      simp [PT.step, PT.handle_signal, PT.persistent, compute_return,
        compute_signal]
      norm_num
    have h3 : PT.step 5 (1/100) (-(1/100)) (1/500) 1
        (⟨[101, 100], [1/100], [1, 0], .FLAT, none, 100000, 0,
          some (.num 2)⟩ : PT.State) (.num 3) (201/2)
        = some ⟨[201/2, 101, 100], [-(1/202), 1/100], [-1, 1], .FLAT, none,
                100000, 0, some (.num 3)⟩ := by
      simp [PT.step, PT.handle_signal, PT.persistent, compute_return,
        compute_signal]
      norm_num
    simp only [PT.run, h1, h2, h3, PT.halted]
    norm_num
  · unfold compute_signal rolling_mean
    rw [if_neg (List.cons_ne_nil _ _)]
    norm_num

/-- C4: in both paper bots, exiting a LONG position at price `p` adds
`(p - entry) * size` to the balance, exiting a SHORT position adds
`(entry - p) * size`, sets the position to FLAT with no entry price and
leaves the trade count unchanged; `enter_long` and `enter_short` each
increment the trade count by exactly one, so the trade count changes only
on entries, never on exits. -/
theorem c4_pnl_and_trade_count (size p e : ℚ) (s : Edited.BotState)
    (t : PT.State) :
    (s.position = .LONG → s.entry_price = some e →
      Edited.exit_position size s p
        = some { s with balance := s.balance + (p - e) * size, position := .FLAT, entry_price := none }) ∧
    (s.position = .SHORT → s.entry_price = some e →
      Edited.exit_position size s p
        = some { s with balance := s.balance + (e - p) * size, position := .FLAT, entry_price := none }) ∧
    (Edited.enter_long s p).trades = s.trades + 1 ∧
    (Edited.enter_short s p).trades = s.trades + 1 ∧
    (t.position = .LONG → t.entry_price = some e →
      PT.exit_position size t p
        = some { t with balance := t.balance + (p - e) * size, position := .FLAT, entry_price := none }) ∧
    (t.position = .SHORT → t.entry_price = some e →
      PT.exit_position size t p
        = some { t with balance := t.balance + (e - p) * size, position := .FLAT, entry_price := none }) ∧
    (PT.enter_long t p).trades = t.trades + 1 ∧
    (PT.enter_short t p).trades = t.trades + 1 := by
  refine ⟨fun h1 h2 => ?_, fun h1 h2 => ?_, rfl, rfl,
    fun h1 h2 => ?_, fun h1 h2 => ?_, rfl, rfl⟩ <;>
    simp [Edited.exit_position, PT.exit_position, h1, h2]

/-- C4 witness: the exit/enter facts evaluated at size 1 on concrete LONG
and SHORT states (`exit LONG@101 at 99` loses 2; `exit SHORT@99 at 105`
loses 6; entries bump the trade count). -/
theorem c4_pnl_and_trade_count_witness :
    Edited.exit_position 1 ⟨[], [], .LONG, some 101, 100000, 1, none⟩ 99
      = some ⟨[], [], .FLAT, none, 99998, 1, none⟩ ∧
    (Edited.enter_long ⟨[], [], .FLAT, none, 100000, 0, none⟩ 100).trades = 1 ∧
    PT.exit_position 1 ⟨[], [], [], .SHORT, some 99, 99998, 2, none⟩ 105
      = some ⟨[], [], [], .FLAT, none, 99992, 2, none⟩ := by
  have h := c4_pnl_and_trade_count 1 99 101
    (⟨[], [], .LONG, some 101, 100000, 1, none⟩ : Edited.BotState)
    (⟨[], [], [], .SHORT, some 99, 99998, 2, none⟩ : PT.State)
  have h' := c4_pnl_and_trade_count 1 105 99
    (⟨[], [], .LONG, some 101, 100000, 1, none⟩ : Edited.BotState)
    (⟨[], [], [], .SHORT, some 99, 99998, 2, none⟩ : PT.State)
  refine ⟨?_, ?_, ?_⟩
  · have := h.1 rfl rfl
    rw [this]
    norm_num
  · have := (c4_pnl_and_trade_count 1 100 0
      (⟨[], [], .FLAT, none, 100000, 0, none⟩ : Edited.BotState)
      (⟨[], [], [], .SHORT, some 99, 99998, 2, none⟩ : PT.State)).2.2.1
    simpa using this
  · have := h'.2.2.2.2.2.1 rfl rfl
    rw [this]
    norm_num

namespace BotFinal

/-- One backoff update maps `min (2 ^ j) 60` to `min (2 ^ (j + 1)) 60`. -/
lemma next_backoff_pow (j : ℕ) :
    next_backoff (min (2 ^ j) backoff_ceiling) = min (2 ^ (j + 1)) backoff_ceiling := by
  unfold next_backoff backoff_ceiling
  rcases le_total (2 ^ j) 60 with h | h
  · rw [min_eq_left h, pow_succ]
  · have h2 : 60 ≤ 2 ^ (j + 1) := by
      rw [pow_succ]
      omega
    rw [min_eq_right h, min_eq_right h2]
    norm_num

/-- Consecutive failures starting from a backoff of `min (2 ^ j) 60`
produce the doubling-capped wait sequence. -/
lemma run_bot_waits_replicate (m j : ℕ) :
    run_bot_waits (min (2 ^ j) backoff_ceiling) (List.replicate m false)
      = (List.range m).map fun i => min (2 ^ (j + i)) backoff_ceiling := by
  induction m generalizing j with
  | zero => rfl
  | succ n ih =>
      rw [List.replicate_succ, List.range_succ_eq_map]
      have hstep : run_bot_waits (min (2 ^ j) backoff_ceiling)
          (false :: List.replicate n false)
          = min (2 ^ j) backoff_ceiling
            :: run_bot_waits (next_backoff (min (2 ^ j) backoff_ceiling))
                  (List.replicate n false) := rfl
      rw [hstep, next_backoff_pow, ih (j + 1)]
      simp only [List.map_cons, List.map_map]
      refine congrArg₂ _ (by rw [Nat.add_zero]) ?_
      refine List.map_congr_left fun i _ => ?_
      simp only [Function.comp_apply, Nat.succ_eq_add_one]
      have hji : j + 1 + i = j + (i + 1) := by omega
      rw [hji]

/-- Any wait emitted from a backoff that respects the ceiling respects the
ceiling. -/
lemma run_bot_waits_le (trace : List Bool) (b : ℕ) (hb : b ≤ backoff_ceiling) :
    ∀ w ∈ run_bot_waits b trace, w ≤ backoff_ceiling := by
  induction trace generalizing b with
  | nil => simp [run_bot_waits]
  | cons connected rest ih =>
      intro w hw
      rw [run_bot_waits] at hw
      rcases List.mem_cons.1 hw with h | h
      · subst h
        cases connected
        · simpa using hb
        · simp [backoff_floor, backoff_ceiling]
      · exact ih (next_backoff (if connected then backoff_floor else b))
          (min_le_right _ _) w h

end BotFinal

/-- C8 (amended): in `bot_final.py`'s `run_bot`, after any successful
connection the backoff is reset to the floor 1 and each consecutive failure
doubles it up to the ceiling 60, so the wait before the k-th consecutive
retry is `min (2 ^ (k - 1)) 60`; every emitted wait is bounded by the
ceiling.  (`paper_trading_bot_Edited.py`'s `run_forever` instead sleeps a
constant 5 with no doubling or reset — see the counterexample.) -/
theorem c8_backoff_amended :
    (∀ b m : ℕ, BotFinal.run_bot_waits b (true :: List.replicate m false)
        = (List.range (m + 1)).map fun i => min (2 ^ i) BotFinal.backoff_ceiling) ∧
    (∀ (trace : List Bool) (w : ℕ),
        w ∈ BotFinal.run_bot_waits BotFinal.backoff_floor trace →
        w ≤ BotFinal.backoff_ceiling) := by
  constructor
  · intro b m
    have hstep : BotFinal.run_bot_waits b (true :: List.replicate m false)
        = BotFinal.backoff_floor
          :: BotFinal.run_bot_waits (BotFinal.next_backoff BotFinal.backoff_floor)
                (List.replicate m false) := rfl
    have h0 : BotFinal.backoff_floor = min (2 ^ 0) BotFinal.backoff_ceiling := by
      decide
    rw [hstep, h0, BotFinal.next_backoff_pow, BotFinal.run_bot_waits_replicate,
      List.range_succ_eq_map]
    simp only [List.map_cons, List.map_map, pow_zero]
    refine congrArg₂ _ rfl ?_
    refine List.map_congr_left fun i _ => ?_
    simp only [Function.comp_apply, Nat.succ_eq_add_one]
    rw [Nat.add_comm 1 i]
  · intro trace w hw
    exact BotFinal.run_bot_waits_le trace BotFinal.backoff_floor
      (by simp [BotFinal.backoff_floor, BotFinal.backoff_ceiling]) w hw

/-- C8 witness: a success followed by three failures yields waits
`[1, 2, 4, 8]`, and a concrete wait is within the ceiling. -/
theorem c8_backoff_amended_witness :
    BotFinal.run_bot_waits 7 (true :: List.replicate 3 false)
      = (List.range 4).map (fun i => min (2 ^ i) BotFinal.backoff_ceiling) ∧
    (1 : ℕ) ≤ BotFinal.backoff_ceiling :=
  ⟨c8_backoff_amended.1 7 3,
   c8_backoff_amended.2 [false] 1 (by decide)⟩

/-- C8 counterexample: the reconnect wait of `run_forever` in
`paper_trading_bot_Edited.py` before the first retry is the constant 5, not
the claimed floor `min (2 ^ 0) 60 = 1`; there is no doubling backoff in
that variant. -/
theorem c8_constant_delay_counterexample :
    Edited.run_forever_wait 1 = 5 ∧ min (2 ^ (1 - 1)) 60 = 1 ∧
    Edited.run_forever_wait 1 ≠ min (2 ^ (1 - 1)) 60 := by
  decide

/-- C9 (amended): malformed candle input is handled differently by each
cited receive loop.  `paper_trading_bot_Edited.py`'s
`parse_delta_candlestick` discards (returns `None` for) any message whose
`type` field is not prefixed with `"candlestick_"`, whose `close` is
missing or unparseable as a number, or whose `candle_start_time` key is
missing, and a discarded message leaves the pipeline state unchanged; the
timestamp value itself is never parsed as a number.  `bot_final.py`'s
`parse_candle` likewise discards on a bad type prefix or a missing or
unparseable `close`, a discarded message leaves its rolling state
unchanged, and a missing `timestamp` is forwarded as `None` rather than
discarded.  `paper_trading_bot.py`'s `run` never inspects the type field
and discards silently only a missing or empty (falsy) payload; when the
last payload candle has a missing or non-numeric `close` or a missing
`start_timestamp`, the unguarded extraction raises an exception that
escapes the receive loop instead of discarding the message. -/
theorem c9_malformed_discarded_amended (msg : WsMsg) (pmsg : PTMsg)
    (W window : ℕ) (lt st deadband size long_th short_th : ℚ)
    (s : Edited.BotState) (t : PT.State) (r : BotFinal.RollingState) :
    (¬ startswith (msg.type_.getD "") "candlestick_" →
      Edited.parse_delta_candlestick msg = none) ∧
    (msg.close = none → Edited.parse_delta_candlestick msg = none) ∧
    (∀ str, msg.close = some (.nonnum str) →
      Edited.parse_delta_candlestick msg = none) ∧
    (msg.candle_start_time = none → Edited.parse_delta_candlestick msg = none) ∧
    (Edited.parse_delta_candlestick msg = none →
      Edited.consume_msg W lt st size s msg = some s) ∧
    (¬ startswith (msg.type_.getD "") "candlestick_" →
      BotFinal.parse_candle msg = none) ∧
    (msg.close = none → BotFinal.parse_candle msg = none) ∧
    (∀ str, msg.close = some (.nonnum str) → BotFinal.parse_candle msg = none) ∧
    (BotFinal.parse_candle msg = none →
      BotFinal.consume_msg window long_th short_th r msg = r) ∧
    (∀ q, startswith (msg.type_.getD "") "candlestick_" →
      msg.close = some (.num q) →
      BotFinal.parse_candle msg = some (q, msg.timestamp)) ∧
    (pmsg.payload = none →
      PT.consume_msg W lt st deadband size t pmsg = some (some t)) ∧
    (pmsg.payload = some [] →
      PT.consume_msg W lt st deadband size t pmsg = some (some t)) ∧
    (∀ l cand, pmsg.payload = some (l ++ [cand]) → cand.close = none →
      PT.consume_msg W lt st deadband size t pmsg = none) ∧
    (∀ l cand str, pmsg.payload = some (l ++ [cand]) →
      cand.close = some (.nonnum str) →
      PT.consume_msg W lt st deadband size t pmsg = none) ∧
    (∀ l cand q, pmsg.payload = some (l ++ [cand]) →
      cand.close = some (.num q) → cand.start_timestamp = none →
      PT.consume_msg W lt st deadband size t pmsg = none) ∧
    (∀ ty, PT.consume_msg W lt st deadband size t { pmsg with type_ := ty }
      = PT.consume_msg W lt st deadband size t pmsg) := by
  obtain ⟨ty, cst, ts, cl⟩ := msg
  refine ⟨fun h => ?_, fun h => ?_, fun str h => ?_, fun h => ?_, fun h => ?_,
    fun h => ?_, fun h => ?_, fun str h => ?_, fun h => ?_, fun q h1 h2 => ?_,
    fun h => ?_, fun h => ?_, fun l cand h hc => ?_,
    fun l cand str h hc => ?_, fun l cand q h hc hts => ?_, fun ty' => ?_⟩
  · simp [Edited.parse_delta_candlestick, h]
  · subst h
    simp only [Edited.parse_delta_candlestick]
    split_ifs <;> cases cst <;> rfl
  · subst h
    simp only [Edited.parse_delta_candlestick]
    split_ifs <;> cases cst <;> simp [parse_float]
  · subst h
    simp only [Edited.parse_delta_candlestick]
    split_ifs <;> rfl
  · simp [Edited.consume_msg, h]
  · simp [BotFinal.parse_candle, h]
  · subst h
    simp only [BotFinal.parse_candle]
    split_ifs <;> rfl
  · subst h
    simp only [BotFinal.parse_candle]
    split_ifs <;> simp [parse_float]
  · simp [BotFinal.consume_msg, h]
  · subst h2
    simp [BotFinal.parse_candle, h1, parse_float]
  · simp [PT.consume_msg, PT.extract_candle, h]
  · simp [PT.consume_msg, PT.extract_candle, h]
  · rw [PT.consume_msg, PT.extract_candle, h]
    simp only [List.getLast?_concat, hc]
  · rw [PT.consume_msg, PT.extract_candle, h]
    simp only [List.getLast?_concat, hc]
    rfl
  · rw [PT.consume_msg, PT.extract_candle, h]
    simp only [List.getLast?_concat, hc, hts]
    rfl
  · rw [PT.consume_msg, PT.consume_msg, PT.extract_candle, PT.extract_candle]

/-- C9 witness: the amended facts evaluated on concrete messages — wrong
type, missing close, non-numeric close and missing timestamp key are
discarded by the Edited parser; a discard leaves the Edited state
unchanged; `bot_final.py` discards a wrong-type message, a discard leaves
its rolling state unchanged, and it accepts a candle with no timestamp;
`paper_trading_bot.py` silently skips a payload-less message but crashes
on a payload whose last candle has the non-numeric close "abc". -/
theorem c9_malformed_discarded_amended_witness :
    Edited.parse_delta_candlestick ⟨some "subscribed", some (.num 1), none, some (.num 100)⟩ = none ∧
    Edited.parse_delta_candlestick ⟨some "candlestick_1m", some (.num 1), none, none⟩ = none ∧
    Edited.parse_delta_candlestick ⟨some "candlestick_1m", some (.num 1), none, some (.nonnum "x")⟩ = none ∧
    Edited.parse_delta_candlestick ⟨some "candlestick_1m", none, none, some (.num 100)⟩ = none ∧
    Edited.consume_msg 2 (1/2) (-(1/2)) 1 Edited.init_state
      ⟨some "subscribed", some (.num 1), none, some (.num 100)⟩ = some Edited.init_state ∧
    BotFinal.parse_candle ⟨some "subscribed", some (.num 1), none, some (.num 100)⟩ = none ∧
    BotFinal.consume_msg 5 (1/10) (-(1/10)) BotFinal.make_rolling_state
      ⟨some "subscribed", some (.num 1), none, some (.num 100)⟩
      = BotFinal.make_rolling_state ∧
    BotFinal.parse_candle ⟨some "candlestick_1m", none, none, some (.num 100)⟩ = some (100, none) ∧
    PT.consume_msg 5 (1/100) (-(1/100)) (1/500) 1 PT.init_state
      ⟨some "candlestick_1m", none⟩ = some (some PT.init_state) ∧
    PT.consume_msg 5 (1/100) (-(1/100)) (1/500) 1 PT.init_state
      ⟨some "candlestick_1m", some [⟨some (.nonnum "abc"), some (.num 1)⟩]⟩ = none := by
  have hbad : ¬ startswith ((some "subscribed").getD "") "candlestick_" := by decide
  have hok : startswith ((some "candlestick_1m").getD "") "candlestick_" = true := by decide
  refine ⟨?_, ?_, ?_, ?_, ?_, ?_, ?_, ?_, ?_, ?_⟩
  · exact (c9_malformed_discarded_amended
      ⟨some "subscribed", some (.num 1), none, some (.num 100)⟩ ⟨none, none⟩
      2 5 (1/2) (-(1/2)) (1/500) 1 (1/10) (-(1/10)) Edited.init_state
      PT.init_state BotFinal.make_rolling_state).1 hbad
  · exact (c9_malformed_discarded_amended
      ⟨some "candlestick_1m", some (.num 1), none, none⟩ ⟨none, none⟩
      2 5 (1/2) (-(1/2)) (1/500) 1 (1/10) (-(1/10)) Edited.init_state
      PT.init_state BotFinal.make_rolling_state).2.1 rfl
  · exact (c9_malformed_discarded_amended
      ⟨some "candlestick_1m", some (.num 1), none, some (.nonnum "x")⟩ ⟨none, none⟩
      2 5 (1/2) (-(1/2)) (1/500) 1 (1/10) (-(1/10)) Edited.init_state
      PT.init_state BotFinal.make_rolling_state).2.2.1 "x" rfl
  · exact (c9_malformed_discarded_amended
      ⟨some "candlestick_1m", none, none, some (.num 100)⟩ ⟨none, none⟩
      2 5 (1/2) (-(1/2)) (1/500) 1 (1/10) (-(1/10)) Edited.init_state
      PT.init_state BotFinal.make_rolling_state).2.2.2.1 rfl
  · refine (c9_malformed_discarded_amended
      ⟨some "subscribed", some (.num 1), none, some (.num 100)⟩ ⟨none, none⟩
      2 5 (1/2) (-(1/2)) (1/500) 1 (1/10) (-(1/10)) Edited.init_state
      PT.init_state BotFinal.make_rolling_state).2.2.2.2.1 ?_
    exact (c9_malformed_discarded_amended
      ⟨some "subscribed", some (.num 1), none, some (.num 100)⟩ ⟨none, none⟩
      2 5 (1/2) (-(1/2)) (1/500) 1 (1/10) (-(1/10)) Edited.init_state
      PT.init_state BotFinal.make_rolling_state).1 hbad
  · exact (c9_malformed_discarded_amended
      ⟨some "subscribed", some (.num 1), none, some (.num 100)⟩ ⟨none, none⟩
      2 5 (1/2) (-(1/2)) (1/500) 1 (1/10) (-(1/10)) Edited.init_state
      PT.init_state BotFinal.make_rolling_state).2.2.2.2.2.1 hbad
  · refine (c9_malformed_discarded_amended
      ⟨some "subscribed", some (.num 1), none, some (.num 100)⟩ ⟨none, none⟩
      2 5 (1/2) (-(1/2)) (1/500) 1 (1/10) (-(1/10)) Edited.init_state
      PT.init_state BotFinal.make_rolling_state).2.2.2.2.2.2.2.2.1 ?_
    exact (c9_malformed_discarded_amended
      ⟨some "subscribed", some (.num 1), none, some (.num 100)⟩ ⟨none, none⟩
      2 5 (1/2) (-(1/2)) (1/500) 1 (1/10) (-(1/10)) Edited.init_state
      PT.init_state BotFinal.make_rolling_state).2.2.2.2.2.1 hbad
  · exact (c9_malformed_discarded_amended
      ⟨some "candlestick_1m", none, none, some (.num 100)⟩ ⟨none, none⟩
      2 5 (1/2) (-(1/2)) (1/500) 1 (1/10) (-(1/10)) Edited.init_state
      PT.init_state BotFinal.make_rolling_state).2.2.2.2.2.2.2.2.2.1 100 hok rfl
  · exact (c9_malformed_discarded_amended
      ⟨some "x", none, none, none⟩ ⟨some "candlestick_1m", none⟩
      5 5 (1/100) (-(1/100)) (1/500) 1 (1/10) (-(1/10)) Edited.init_state
      PT.init_state BotFinal.make_rolling_state).2.2.2.2.2.2.2.2.2.2.1 rfl
  · exact (c9_malformed_discarded_amended
      ⟨some "x", none, none, none⟩
      ⟨some "candlestick_1m", some [⟨some (.nonnum "abc"), some (.num 1)⟩]⟩
      5 5 (1/100) (-(1/100)) (1/500) 1 (1/10) (-(1/10)) Edited.init_state
      PT.init_state BotFinal.make_rolling_state).2.2.2.2.2.2.2.2.2.2.2.2.2.1
      [] ⟨some (.nonnum "abc"), some (.num 1)⟩ "abc" (by simp) rfl

/-- C9 counterexample: a message whose timestamp field is the non-numeric
string "abc" (hence "unparseable as a number") but whose type and close are
valid is **not** discarded by `paper_trading_bot_Edited.py`: it parses to a
candle carrying the raw timestamp and processing it changes the pipeline
state, refuting the claim as stated. -/
theorem c9_nonnumeric_timestamp_counterexample :
    Edited.parse_delta_candlestick
      ⟨some "candlestick_1m", some (.nonnum "abc"), none, some (.num 100)⟩
      = some (.nonnum "abc", 100) ∧
    Edited.consume_msg 2 Edited.LONG_THRESH Edited.SHORT_THRESH
      Edited.POSITION_SIZE Edited.init_state
      ⟨some "candlestick_1m", some (.nonnum "abc"), none, some (.num 100)⟩
      = some ⟨[100], [], .FLAT, none, 100000, 0, some (.nonnum "abc")⟩ ∧
    (⟨[100], [], .FLAT, none, 100000, 0, some (.nonnum "abc")⟩ : Edited.BotState)
      ≠ Edited.init_state := by
  have hok : startswith ((some "candlestick_1m").getD "") "candlestick_" = true := by
    decide
  have hparse : Edited.parse_delta_candlestick
      ⟨some "candlestick_1m", some (.nonnum "abc"), none, some (.num 100)⟩
      = some (.nonnum "abc", 100) := by
    simp only [Edited.parse_delta_candlestick]
    rw [if_pos (by exact hok)]
    rfl
  refine ⟨hparse, ?_, ?_⟩
  · rw [Edited.consume_msg, hparse]
    simp [Edited.consume_candle, Edited.init_state, Edited.handle_signal,
      Edited.enter_long, Edited.enter_short, Edited.exit_position,
      compute_return, rolling_mean, compute_signal, Edited.START_BALANCE,
      Edited.LONG_THRESH, Edited.SHORT_THRESH]
    norm_num
  · simp [Edited.init_state]

/-- C5: in `paper_trading_bot.py`'s state machine, with an open LONG or
SHORT position and a neutral signal, the position is exited only when
`|ret_pct| < EXIT_DEADBAND` (the return value passed through to
`handle_signal`); when `|ret_pct| ≥ EXIT_DEADBAND` the whole state — in
particular position side, entry price, balance and trade count — is
unchanged by the step. -/
theorem c5_exit_deadband (deadband size price ret : ℚ) (s : PT.State)
    (h : s.position = .LONG ∨ s.position = .SHORT) :
    (∀ s', PT.handle_signal deadband size s 0 price ret = some s' →
        s'.position = .FLAT → |ret| < deadband) ∧
    (deadband ≤ |ret| → PT.handle_signal deadband size s 0 price ret = some s) := by
  have key : deadband ≤ |ret| →
      PT.handle_signal deadband size s 0 price ret = some s := by
    intro hge
    cases hp : PT.persistent s.signal_buf 0
    · simp [PT.handle_signal, hp]
    · rcases h with hpos | hpos <;>
        simp [PT.handle_signal, hp, hpos, not_lt.2 hge]
  refine ⟨?_, key⟩
  intro s' hs' hflat
  rcases lt_or_le |ret| deadband with hlt | hge
  · exact hlt
  · exfalso
    have h2 := key hge
    rw [hs'] at h2
    have hss : s' = s := Option.some.inj h2
    rw [hss] at hflat
    rcases h with hpos | hpos <;> rw [hpos] at hflat <;> simp at hflat

/-- C5 witness: with a persistent neutral signal, an open LONG position,
deadband 1 and `|ret| = 3 ≥ 1`, the step returns the state unchanged. -/
theorem c5_exit_deadband_witness :
    PT.handle_signal 1 1 ⟨[], [], [0, 0], .LONG, some 100, 100000, 1, none⟩ 0 5 3
      = some ⟨[], [], [0, 0], .LONG, some 100, 100000, 1, none⟩ :=
  (c5_exit_deadband 1 1 5 3
    (⟨[], [], [0, 0], .LONG, some 100, 100000, 1, none⟩ : PT.State)
    (Or.inl rfl)).2 (by norm_num)

namespace Edited

/-- `handle_signal` never touches `last_candle_ts`. -/
lemma handle_signal_ts_edited (size : ℚ) (s : BotState) (sig : Int) (p : ℚ)
    (s' : BotState) (h : handle_signal size s sig p = some s') :
    s'.last_candle_ts = s.last_candle_ts := by
  obtain ⟨cl, rt, pos, ep, bal, tr, ts⟩ := s
  cases pos <;> cases ep <;>
    simp only [handle_signal, exit_position, enter_long, enter_short,
      Option.map_some, Option.map_none] at h <;>
    split_ifs at h <;>
    simp_all <;> subst h <;> rfl

end Edited

namespace PT

/-- `handle_signal` never touches `last_candle_ts`. -/
lemma handle_signal_ts_pt (deadband size : ℚ) (s : State) (sig : Int)
    (p ret : ℚ) (s' : State)
    (h : handle_signal deadband size s sig p ret = some s') :
    s'.last_candle_ts = s.last_candle_ts := by
  obtain ⟨cl, rt, buf, pos, ep, bal, tr, ts⟩ := s
  cases pos <;> cases ep <;>
    simp only [handle_signal, exit_position, enter_long, enter_short,
      Option.map_some, Option.map_none] at h <;>
    split_ifs at h <;>
    simp_all <;> subst h <;> rfl

end PT

/-- C7: in both paper bots, a parsed candle whose timestamp equals the last
forwarded timestamp leaves the entire pipeline state unchanged, and after
any processed candle a second candle with the same timestamp (any close) is
a no-op — so two candles with the same timestamp back-to-back update state
exactly once. -/
theorem c7_duplicate_timestamp (W : ℕ) (lt st deadband size : ℚ)
    (ts : JVal) (c c' : ℚ) (s s1 : Edited.BotState) (t t1 : PT.State) :
    (s.last_candle_ts = some ts →
      Edited.consume_candle W lt st size s ts c = some s) ∧
    (Edited.consume_candle W lt st size s ts c = some s1 →
      Edited.consume_candle W lt st size s1 ts c' = some s1) ∧
    (t.last_candle_ts = some ts → PT.step W lt st deadband size t ts c = some t) ∧
    (PT.step W lt st deadband size t ts c = some t1 →
      PT.step W lt st deadband size t1 ts c' = some t1) := by
  refine ⟨fun h => ?_, fun h => ?_, fun h => ?_, fun h => ?_⟩
  · rw [Edited.consume_candle, if_pos (by rw [h])]
  · by_cases hdup : some ts = s.last_candle_ts
    · rw [Edited.consume_candle, if_pos hdup] at h
      have hss := Option.some.inj h
      subst hss
      rw [Edited.consume_candle, if_pos hdup]
    · obtain ⟨cl, rt, pos, ep, bal, tr, lts⟩ := s
      rw [Edited.consume_candle, if_neg hdup] at h
      cases cl with
      | nil =>
          have hlast : s1.last_candle_ts = some ts :=
            Edited.handle_signal_ts_edited _ _ _ _ _ h
          rw [Edited.consume_candle, if_pos (by rw [hlast])]
      | cons p0 pr =>
          have hlast : s1.last_candle_ts = some ts :=
            Edited.handle_signal_ts_edited _ _ _ _ _ h
          rw [Edited.consume_candle, if_pos (by rw [hlast])]
  · rw [PT.step, if_pos (by rw [h])]
  · by_cases hdup : some ts = t.last_candle_ts
    · rw [PT.step, if_pos hdup] at h
      have hss := Option.some.inj h
      subst hss
      rw [PT.step, if_pos hdup]
    · obtain ⟨cl, rt, buf, pos, ep, bal, tr, lts⟩ := t
      rw [PT.step, if_neg hdup] at h
      cases cl with
      | nil =>
          have hlast : t1.last_candle_ts = some ts :=
            PT.handle_signal_ts_pt _ _ _ _ _ _ _ h
          rw [PT.step, if_pos (by rw [hlast])]
      | cons p0 pr =>
          have hlast : t1.last_candle_ts = some ts :=
            PT.handle_signal_ts_pt _ _ _ _ _ _ _ h
          rw [PT.step, if_pos (by rw [hlast])]

/-- C7 witness: processing the candle `(ts = 1, close = 100)` from the
initial state and then processing `(ts = 1, close = 999)` right after
leaves the state of the first processing unchanged (both pipelines). -/
theorem c7_duplicate_timestamp_witness :
    Edited.consume_candle 2 (1/2) (-(1/2)) 1
      ⟨[100], [], .FLAT, none, 100000, 0, some (.num 1)⟩ (.num 1) 999
      = some ⟨[100], [], .FLAT, none, 100000, 0, some (.num 1)⟩ ∧
    PT.step 5 (1/100) (-(1/100)) (1/500) 1
      ⟨[100], [], [0], .FLAT, none, 100000, 0, some (.num 1)⟩ (.num 1) 999
      = some ⟨[100], [], [0], .FLAT, none, 100000, 0, some (.num 1)⟩ :=
  ⟨(c7_duplicate_timestamp 2 (1/2) (-(1/2)) 0 1 (.num 1) 999 999
      (⟨[100], [], .FLAT, none, 100000, 0, some (.num 1)⟩ : Edited.BotState)
      (⟨[100], [], .FLAT, none, 100000, 0, some (.num 1)⟩ : Edited.BotState)
      PT.init_state PT.init_state).1 rfl,
   (c7_duplicate_timestamp 5 (1/100) (-(1/100)) (1/500) 1 (.num 1) 999 999
      Edited.init_state Edited.init_state
      (⟨[100], [], [0], .FLAT, none, 100000, 0, some (.num 1)⟩ : PT.State)
      (⟨[100], [], [0], .FLAT, none, 100000, 0, some (.num 1)⟩ : PT.State)).2.2.1 rfl⟩

namespace Edited

/-- The FLAT-iff-no-entry invariant is preserved by `handle_signal`. -/
lemma handle_signal_inv (size : ℚ) (s : BotState) (sig : Int) (p : ℚ)
    (s' : BotState) (hinv : s.position = .FLAT ↔ s.entry_price = none)
    (h : handle_signal size s sig p = some s') :
    s'.position = .FLAT ↔ s'.entry_price = none := by
  obtain ⟨cl, rt, pos, ep, bal, tr, ts⟩ := s
  cases pos <;> cases ep <;>
    simp only [handle_signal, exit_position, enter_long, enter_short,
      Option.map_some, Option.map_none] at h <;>
    split_ifs at h <;>
    first
      | (simp_all; done)
      | (have hxx := Option.some.inj h; subst hxx; simp)

end Edited

/-- C10: every state reachable from the initial `BotState()` by
`enter_long`/`enter_short`/`exit_position`/`handle_signal` calls satisfies
`position = FLAT ↔ entry_price = None`; in particular, whenever the
position is LONG or SHORT, `exit_position` finds a numeric entry price and
succeeds in computing the PnL. -/
theorem c10_flat_iff_no_entry (size : ℚ) (s : Edited.BotState)
    (h : Edited.Reachable size s) :
    (s.position = .FLAT ↔ s.entry_price = none) ∧
    (∀ p : ℚ, s.position ≠ .FLAT →
      ∃ s', Edited.exit_position size s p = some s') := by
  have inv : s.position = .FLAT ↔ s.entry_price = none := by
    induction h with
    | init => simp [Edited.init_state]
    | enterLong s0 p _ ih => simp [Edited.enter_long]
    | enterShort s0 p _ ih => simp [Edited.enter_short]
    | exit s0 p s0' _ hx ih =>
        obtain ⟨cl, rt, pos, ep, bal, tr, ts⟩ := s0
        cases pos <;> cases ep <;>
          simp only [Edited.exit_position] at hx <;>
          first
            | (simp_all; done)
            | (have hxx := Option.some.inj hx; subst hxx; simp)
    | handle s0 sig p s0' _ hx ih => exact Edited.handle_signal_inv _ _ _ _ _ ih hx
  refine ⟨inv, fun p hpos => ?_⟩
  obtain ⟨cl, rt, pos, ep, bal, tr, ts⟩ := s
  cases pos
  · exact absurd rfl hpos
  · cases ep with
    | none => simp_all
    | some e => exact ⟨_, rfl⟩
  · cases ep with
    | none => simp_all
    | some e => exact ⟨_, rfl⟩

/-- C10 witness: the invariant evaluated at the concrete reachable state
`enter_long(BotState(), 100)` — an open LONG position with entry 100. -/
theorem c10_flat_iff_no_entry_witness :
    (((Edited.enter_long Edited.init_state 100).position = .FLAT ↔
      (Edited.enter_long Edited.init_state 100).entry_price = none)) ∧
    (∀ p : ℚ, (Edited.enter_long Edited.init_state 100).position ≠ .FLAT →
      ∃ s', Edited.exit_position 1 (Edited.enter_long Edited.init_state 100) p
        = some s') :=
  c10_flat_iff_no_entry 1 (Edited.enter_long Edited.init_state 100)
    (Edited.Reachable.enterLong Edited.init_state 100 (Edited.Reachable.init))

namespace PT

/-- `stepN` starting from a crashed run stays crashed. -/
lemma stepN_none (W : ℕ) (lt st deadband size : ℚ)
    (l : List (JVal × ℚ)) : stepN W lt st deadband size none l = none := by
  induction l with
  | nil => rfl
  | cons hd tl ih =>
      obtain ⟨ts, c⟩ := hd
      rfl

end PT

/-- C6 (amended): `paper_trading_bot.py`'s candle loop checks the
kill-switch after every processed candle and stops exactly at the first
candle after which `trades ≥ MAX_TRADES` or
`balance - START_BALANCE ≤ MAX_DRAWDOWN` holds: the loop result equals
processing exactly the first `k` candles unconditionally, no state strictly
before the k-th candle satisfies the kill-switch condition, the k-th does
whenever candles remain unprocessed, and at least one candle is processed
when any arrive.  (`paper_trading_bot_Edited.py` performs no kill-switch
check at all — see the counterexample.) -/
theorem c6_killswitch_halt_amended (W : ℕ)
    (lt st deadband size start_balance max_drawdown : ℚ) (max_trades : ℕ)
    (cs : List (JVal × ℚ)) (s : PT.State) :
    ∃ k, k ≤ cs.length ∧
      PT.run W lt st deadband size start_balance max_drawdown max_trades s cs
        = PT.stepN W lt st deadband size (some s) (cs.take k) ∧
      (cs ≠ [] → 1 ≤ k) ∧
      (∀ j, 1 ≤ j → j < k → ∀ u,
        PT.stepN W lt st deadband size (some s) (cs.take j) = some u →
        PT.halted start_balance max_drawdown max_trades u = false) ∧
      (k < cs.length → ∃ u,
        PT.stepN W lt st deadband size (some s) (cs.take k) = some u ∧
        PT.halted start_balance max_drawdown max_trades u = true) := by
  induction cs generalizing s with
  | nil =>
      refine ⟨0, le_refl 0, rfl, fun hne => absurd rfl hne,
        fun j h1 h2 u hu => absurd h2 (by omega),
        fun hk => absurd hk (by simp)⟩
  | cons hd rest ih =>
      obtain ⟨ts, c⟩ := hd
      cases hstep : PT.step W lt st deadband size s ts c with
      | none =>
          refine ⟨rest.length + 1, by simp, ?_, fun _ => by omega, ?_, ?_⟩
          · rw [List.take_succ_cons, List.take_length]
            simp only [PT.run, PT.stepN, hstep]
            rw [PT.stepN_none]
          · intro j h1 h2 u hu
            obtain ⟨j', rfl⟩ : ∃ j', j = j' + 1 := ⟨j - 1, by omega⟩
            rw [List.take_succ_cons] at hu
            simp only [PT.stepN, hstep] at hu
            rw [PT.stepN_none] at hu
            exact absurd hu (by simp)
          · intro hk
            exact absurd hk (by simp)
      | some s1 =>
          cases hh : PT.halted start_balance max_drawdown max_trades s1 with
          | true =>
              refine ⟨1, by simp, ?_, fun _ => le_refl 1, ?_, ?_⟩
              · rw [List.take_succ_cons, List.take_zero]
                simp only [PT.run, PT.stepN, hstep, hh, if_true]
              · intro j h1 h2 u
                omega
              · intro _
                refine ⟨s1, ?_, hh⟩
                rw [List.take_succ_cons, List.take_zero]
                simp only [PT.stepN, hstep]
          | false =>
              obtain ⟨k', hk'le, hrun, _, hmid, hend⟩ := ih s1
              refine ⟨k' + 1, by simpa using hk'le, ?_, fun _ => by omega, ?_, ?_⟩
              · rw [List.take_succ_cons]
                simp only [PT.run, PT.stepN, hstep, hh, Bool.false_eq_true,
                  if_false]
                exact hrun
              · intro j h1 h2 u hu
                obtain ⟨j', rfl⟩ : ∃ j', j = j' + 1 := ⟨j - 1, by omega⟩
                rw [List.take_succ_cons] at hu
                simp only [PT.stepN, hstep] at hu
                rcases Nat.eq_zero_or_pos j' with rfl | hj'
                · rw [List.take_zero] at hu
                  simp only [PT.stepN] at hu
                  rw [← Option.some.inj hu]
                  exact hh
                · exact hmid j' hj' (by omega) u hu
              · intro hk
                obtain ⟨u, hu, hhu⟩ := hend (by simpa using hk)
                refine ⟨u, ?_, hhu⟩
                rw [List.take_succ_cons]
                simp only [PT.stepN, hstep]
                exact hu

/-- C6 witness: the amended halting description applied to the empty
candle list from the initial state. -/
theorem c6_killswitch_halt_amended_witness :
    ∃ k, k ≤ ([] : List (JVal × ℚ)).length ∧
      PT.run 5 (1/100) (-(1/100)) (1/500) 1 100000 (-5000) 50 PT.init_state []
        = PT.stepN 5 (1/100) (-(1/100)) (1/500) 1 (some PT.init_state)
            (([] : List (JVal × ℚ)).take k) ∧
      (([] : List (JVal × ℚ)) ≠ [] → 1 ≤ k) ∧
      (∀ j, 1 ≤ j → j < k → ∀ u,
        PT.stepN 5 (1/100) (-(1/100)) (1/500) 1 (some PT.init_state)
            (([] : List (JVal × ℚ)).take j) = some u →
        PT.halted 100000 (-5000) 50 u = false) ∧
      (k < ([] : List (JVal × ℚ)).length → ∃ u,
        PT.stepN 5 (1/100) (-(1/100)) (1/500) 1 (some PT.init_state)
            (([] : List (JVal × ℚ)).take k) = some u ∧
        PT.halted 100000 (-5000) 50 u = true) :=
  c6_killswitch_halt_amended 5 (1/100) (-(1/100)) (1/500) 1 100000 (-5000) 50
    [] PT.init_state

/-- C6 counterexample: `paper_trading_bot_Edited.py` never checks the
kill-switch.  With its own configuration (`W=2`, thresholds ±0.5, size 1,
start 100000, `MAX_DRAWDOWN = -5000`), after the fourth candle of
`100, 10000, 1, 0.5, 2` the drawdown condition
`balance - START_BALANCE ≤ MAX_DRAWDOWN` holds (balance 90000.5), yet the
fifth candle is still processed and changes balance and trade count —
refuting "once halted, no further candle is ever processed". -/
theorem c6_no_killswitch_counterexample :
    Edited.consume_list 2 Edited.LONG_THRESH Edited.SHORT_THRESH
      Edited.POSITION_SIZE Edited.init_state
      [(.num 1, 100), (.num 2, 10000), (.num 3, 1), (.num 4, 1/2)]
      = some ⟨[1/2, 1, 10000], [-(1/2), -(9999/10000)], .SHORT, some (1/2),
              180001/2, 2, some (.num 4)⟩ ∧
    (180001/2 : ℚ) - Edited.START_BALANCE ≤ Edited.MAX_DRAWDOWN ∧
    Edited.consume_list 2 Edited.LONG_THRESH Edited.SHORT_THRESH
      Edited.POSITION_SIZE Edited.init_state
      [(.num 1, 100), (.num 2, 10000), (.num 3, 1), (.num 4, 1/2), (.num 5, 2)]
      = some ⟨[2, 1/2, 1], [3, -(1/2)], .LONG, some 2,
              89999, 3, some (.num 5)⟩ ∧
    (89999 : ℚ) ≠ 180001/2 ∧ (3 : ℕ) ≠ 2 := by
  have h1 : Edited.consume_candle 2 Edited.LONG_THRESH Edited.SHORT_THRESH
      Edited.POSITION_SIZE Edited.init_state (.num 1) 100
      = some ⟨[100], [], .FLAT, none, 100000, 0, some (.num 1)⟩ := by
    simp [Edited.consume_candle, Edited.init_state, Edited.handle_signal,
      Edited.enter_long, Edited.enter_short, Edited.exit_position,
      compute_return, rolling_mean, compute_signal, Edited.START_BALANCE,
      Edited.LONG_THRESH, Edited.SHORT_THRESH, Edited.POSITION_SIZE]
    norm_num
  have h2 : Edited.consume_candle 2 Edited.LONG_THRESH Edited.SHORT_THRESH
      Edited.POSITION_SIZE
      (⟨[100], [], .FLAT, none, 100000, 0, some (.num 1)⟩ : Edited.BotState)
      (.num 2) 10000
      = some ⟨[10000, 100], [99], .LONG, some 10000, 100000, 1,
              some (.num 2)⟩ := by
    simp [Edited.consume_candle, Edited.handle_signal, Edited.enter_long,
      Edited.enter_short, Edited.exit_position, compute_return, rolling_mean,
      compute_signal, Edited.LONG_THRESH, Edited.SHORT_THRESH,
      Edited.POSITION_SIZE]
    norm_num
  have h3 : Edited.consume_candle 2 Edited.LONG_THRESH Edited.SHORT_THRESH
      Edited.POSITION_SIZE
      (⟨[10000, 100], [99], .LONG, some 10000, 100000, 1,
        some (.num 2)⟩ : Edited.BotState) (.num 3) 1
      = some ⟨[1, 10000, 100], [-(9999/10000), 99], .LONG, some 10000,
              100000, 1, some (.num 3)⟩ := by
    simp [Edited.consume_candle, Edited.handle_signal, Edited.enter_long,
      Edited.enter_short, Edited.exit_position, compute_return, rolling_mean,
      compute_signal, Edited.LONG_THRESH, Edited.SHORT_THRESH,
      Edited.POSITION_SIZE]
    norm_num
  have h4 : Edited.consume_candle 2 Edited.LONG_THRESH Edited.SHORT_THRESH
      Edited.POSITION_SIZE
      (⟨[1, 10000, 100], [-(9999/10000), 99], .LONG, some 10000,
        100000, 1, some (.num 3)⟩ : Edited.BotState) (.num 4) (1/2)
      = some ⟨[1/2, 1, 10000], [-(1/2), -(9999/10000)], .SHORT, some (1/2),
              180001/2, 2, some (.num 4)⟩ := by
    simp [Edited.consume_candle, Edited.handle_signal, Edited.enter_long,
      Edited.enter_short, Edited.exit_position, compute_return, rolling_mean,
      compute_signal, Edited.LONG_THRESH, Edited.SHORT_THRESH,
      Edited.POSITION_SIZE]
    norm_num
  have h5 : Edited.consume_candle 2 Edited.LONG_THRESH Edited.SHORT_THRESH
      Edited.POSITION_SIZE
      (⟨[1/2, 1, 10000], [-(1/2), -(9999/10000)], .SHORT, some (1/2),
        180001/2, 2, some (.num 4)⟩ : Edited.BotState) (.num 5) 2
      = some ⟨[2, 1/2, 1], [3, -(1/2)], .LONG, some 2,
              89999, 3, some (.num 5)⟩ := by
    simp [Edited.consume_candle, Edited.handle_signal, Edited.enter_long,
      Edited.enter_short, Edited.exit_position, compute_return, rolling_mean,
      compute_signal, Edited.LONG_THRESH, Edited.SHORT_THRESH,
      Edited.POSITION_SIZE]
    norm_num
  refine ⟨?_, ?_, ?_, by norm_num, by norm_num⟩
  · simp only [Edited.consume_list, h1, h2, h3, h4]
  · rw [Edited.START_BALANCE, Edited.MAX_DRAWDOWN]
    norm_num
  · simp only [Edited.consume_list, h1, h2, h3, h4, h5]

/-- Pushing onto an already-truncated list truncates the same way as
pushing onto the untruncated list (deque `maxlen` semantics). -/
lemma cons_take_take (W : ℕ) (x : ℚ) (l : List ℚ) :
    (x :: l.take W).take W = (x :: l).take W := by
  cases W with
  | zero => rfl
  | succ w =>
      rw [List.take_succ_cons, List.take_succ_cons, List.take_take,
        Nat.min_eq_left (Nat.le_succ w)]

/-- Appending a close appends one percentage change computed against the
previous last close. -/
lemma pct_changes_concat (l : List ℚ) (a e : ℚ) (h : l.getLast? = some e) :
    pct_changes (l ++ [a]) = pct_changes l ++ [compute_return a e] := by
  induction l with
  | nil => simp at h
  | cons x t ih =>
      cases t with
      | nil =>
          simp only [List.getLast?_singleton, Option.some.injEq] at h
          subst h
          simp [pct_changes, compute_return]
      | cons y t' =>
          rw [List.getLast?_cons_cons] at h
          have hih := ih h
          simp only [List.cons_append] at hih ⊢
          show (if x = 0 then 0 else (y - x) / x)
                :: pct_changes (y :: (t' ++ [a]))
              = ((if x = 0 then 0 else (y - x) / x) :: pct_changes (y :: t'))
                ++ [compute_return a e]
          rw [List.cons_append, hih]

/-- A list of `n` closes yields `n - 1` percentage changes. -/
lemma pct_changes_length (l : List ℚ) :
    (pct_changes l).length = l.length - 1 := by
  induction l with
  | nil => rfl
  | cons x t ih =>
      cases t with
      | nil => rfl
      | cons y t' =>
          simp only [pct_changes, List.length_cons] at *
          omega

/-- The mean is invariant under reversal. -/
lemma meanQ_reverse (l : List ℚ) : meanQ l.reverse = meanQ l := by
  simp [meanQ, List.reverse_eq_nil_iff, List.sum_reverse]

/-- State characterisation of the rolling engine: after feeding a
chronological list of closes, `closes` holds the last `W + 1` closes and
`pct_deque` the last `W` consecutive percentage changes (both
most-recent-first). -/
lemma feed_closes_state (W : ℕ) (cs : List ℚ) :
    (BotFinal.feed_closes W cs).1.closes = cs.reverse.take (W + 1) ∧
    (BotFinal.feed_closes W cs).1.pct_deque
      = (pct_changes cs).reverse.take W := by
  induction cs using List.reverseRecOn with
  | nil =>
      constructor <;>
        simp [BotFinal.feed_closes, BotFinal.make_rolling_state, pct_changes]
  | append_singleton l a ih =>
      obtain ⟨ihc, ihp⟩ := ih
      have hfeed : BotFinal.feed_closes W (l ++ [a])
          = BotFinal.update_returns_state W (BotFinal.feed_closes W l).1 a := by
        simp [BotFinal.feed_closes, List.foldl_append]
      rcases List.eq_nil_or_concat l with rfl | ⟨l0, a0, rfl⟩
      · constructor <;>
          simp [BotFinal.feed_closes, BotFinal.update_returns_state,
            BotFinal.make_rolling_state, pct_changes]
      · simp only [List.concat_eq_append] at ihc ihp hfeed ⊢
        obtain ⟨e, r, hrev⟩ : ∃ e r, (l0 ++ [a0]).reverse = e :: r :=
          ⟨a0, l0.reverse, by simp⟩
        have hcloses : (BotFinal.feed_closes W (l0 ++ [a0])).1.closes
            = e :: r.take W := by
          rw [ihc, hrev, List.take_succ_cons]
        have hlaste : (l0 ++ [a0]).getLast? = some e := by
          rw [← List.head?_reverse, hrev]
          rfl
        constructor
        · rw [hfeed]
          show (a :: (BotFinal.feed_closes W (l0 ++ [a0])).1.closes).take (W + 1)
              = ((l0 ++ [a0]) ++ [a]).reverse.take (W + 1)
          rw [ihc, cons_take_take, List.reverse_append (l0 ++ [a0]) [a]]
          rfl
        · rw [hfeed]
          show (match (BotFinal.feed_closes W (l0 ++ [a0])).1.closes with
              | [] => (BotFinal.feed_closes W (l0 ++ [a0])).1.pct_deque
              | prev :: _ =>
                  ((if prev = 0 then 0 else (a - prev) / prev)
                    :: (BotFinal.feed_closes W (l0 ++ [a0])).1.pct_deque).take W)
              = (pct_changes ((l0 ++ [a0]) ++ [a])).reverse.take W
          rw [hcloses]
          show ((if e = 0 then 0 else (a - e) / e)
                :: (BotFinal.feed_closes W (l0 ++ [a0])).1.pct_deque).take W
              = (pct_changes ((l0 ++ [a0]) ++ [a])).reverse.take W
          rw [ihp, cons_take_take, pct_changes_concat (l0 ++ [a0]) a e hlaste,
            List.reverse_append (pct_changes (l0 ++ [a0])) [compute_return a e]]
          rfl

/-- C2: for any nonempty chronological sequence of closes fed one at a time
through `update_returns_state`, the value returned after the latest close is
100 times the arithmetic mean of the last `min (n - 1) W` percentage
changes between consecutive closes (percentage change
`(close - prev) / prev`, 0 when `prev = 0`; mean of an empty list 0). -/
theorem c2_rolling_mean_spec (W : ℕ) (cs : List ℚ) (h : cs ≠ []) :
    (BotFinal.feed_closes W cs).2
      = 100 * meanQ (lastN (min (cs.length - 1) W) (pct_changes cs)) := by
  obtain ⟨l, a, rfl⟩ : ∃ l a, cs = l ++ [a] := by
    rcases List.eq_nil_or_concat cs with rfl | ⟨l, a, rfl⟩
    · exact absurd rfl h
    · exact ⟨l, a, List.concat_eq_append l a⟩
  have hfeed : BotFinal.feed_closes W (l ++ [a])
      = BotFinal.update_returns_state W (BotFinal.feed_closes W l).1 a := by
    simp [BotFinal.feed_closes, List.foldl_append]
  have hval : (BotFinal.feed_closes W (l ++ [a])).2
      = meanQ ((BotFinal.feed_closes W (l ++ [a])).1.pct_deque) * 100 := by
    rw [hfeed]
    dsimp only [BotFinal.update_returns_state, meanQ]
  rw [hval, (feed_closes_state W (l ++ [a])).2]
  have hlen : ((pct_changes (l ++ [a])).reverse).length
      = (l ++ [a]).length - 1 := by
    rw [List.length_reverse, pct_changes_length]
  have htake : ((pct_changes (l ++ [a])).reverse).take W
      = ((pct_changes (l ++ [a])).reverse).take
          (min ((l ++ [a]).length - 1) W) := by
    rw [List.take_eq_take]
    rw [hlen]
    omega
  rw [htake]
  have hlast : lastN (min ((l ++ [a]).length - 1) W) (pct_changes (l ++ [a]))
      = (((pct_changes (l ++ [a])).reverse).take
          (min ((l ++ [a]).length - 1) W)).reverse := rfl
  rw [hlast, meanQ_reverse]
  ring

/-- C2 witness: the rolling-mean characterisation evaluated at `W = 2` on
the closes `100, 101, 99` — both sides equal `-99/202`. -/
theorem c2_rolling_mean_spec_witness :
    (BotFinal.feed_closes 2 [100, 101, 99]).2
      = 100 * meanQ (lastN (min ([100, 101, 99].length - 1) 2)
          (pct_changes [100, 101, 99])) ∧
    100 * meanQ (lastN (min ([(100 : ℚ), 101, 99].length - 1) 2)
        (pct_changes [100, 101, 99])) = -(99/202) := by
  constructor
  · exact c2_rolling_mean_spec 2 [100, 101, 99] (by simp)
  · norm_num [meanQ, lastN, pct_changes]
    simp
